import Mathlib

/-!
# WeepHub — routine scheduling and multi-source dispatch engine

Shallow embedding of the WeepHub server core (the routine store /
validator `buildRoutineFromPayload` with `normalizeActions`,
`normalizeDays`, `isValidTimeString`; the credential resolution
`resolveSmartThingsToken` / `toggleSmartThingsDevice`; the scheduler
`evaluateRoutines` with its in-memory `routineRunTracker`; the action
runner `runRoutineActions`; and the vault accessor `decryptSecret`).

Modelling conventions:
* JavaScript numbers are modelled as exact rationals plus an explicit
  `NaN` (`JSNum`); infinities are not modelled.
* `undefined` fields of JSON payloads are modelled with `Option`
  (`none` = the key is absent).
* Random identifiers (`crypto.randomBytes(..).toString("hex")`) are
  modelled by an explicitly supplied fresh id, or by `none` where the
  generated value is irrelevant to the properties proved here.
* External I/O (the remote SmartThings HTTP calls, base64 decoding and
  the AES-GCM primitive, the activity-log sink) is abstracted into
  function parameters; everything that is control flow of the server
  code itself is embedded directly.
-/

namespace WeepHub

/-- JavaScript number: an exact rational or `NaN`. -/
inductive JSNum where
  | nan : JSNum
  | val (q : ℚ) : JSNum
deriving DecidableEq

/-- The JS expression `Number(x) || 0`: `NaN` (and `0`) collapse to `0`. -/
def jsOrZero : JSNum → ℚ
  | .nan => 0
  | .val q => q

/-- JS falsiness of an optional string value: absent (`undefined`) or `""`. -/
def jsStrFalsy : Option String → Bool
  | none => true
  | some s => s = ""

/-- JS `String.prototype.trim()`: strip leading and trailing whitespace
(modelled directly on the character list so that it evaluates inside the
kernel). -/
def jsTrim (s : String) : String :=
  ⟨((s.data.dropWhile Char.isWhitespace).reverse.dropWhile Char.isWhitespace).reverse⟩

/-- JS `String.prototype.slice(0, n)` (code units modelled as chars). -/
def jsSlice (n : Nat) (s : String) : String :=
  ⟨s.data.take n⟩

/-! ## Secret vault (`decryptSecret`, part_003 lines 91–101)

The base64 decoder, the AES-256-GCM opening primitive and the UTF-8
decoder are external library calls, abstracted as function parameters;
bytes are modelled as `List Nat`.  The embedded code mirrors the early
return for a falsy payload and the `nonce(12) ‖ tag(16) ‖ ciphertext`
split of the blob. -/

/-- Embedding of `decryptSecret(payload, key)`.  `payload` is `none` when
the stored field is absent; a falsy payload returns `""` before any of
the cipher machinery is consulted. -/
def decryptSecret (b64decode : String → List Nat)
    (gcmOpen : List Nat → List Nat → List Nat → List Nat → Except String (List Nat))
    (utf8decode : List Nat → String)
    (payload : Option String) (key : List Nat) : Except String String :=
  if jsStrFalsy payload then .ok ""
  else
    let buf := b64decode (payload.getD "")
    let iv := buf.take 12
    let tag := (buf.drop 12).take 16
    let data := buf.drop 28
    match gcmOpen key iv tag data with
    | .ok dec => .ok (utf8decode dec)
    | .error e => .error e

/-! ## Credential resolution
(`resolveSmartThingsToken`, part_003 lines 403–409, and
`toggleSmartThingsDevice`, lines 460–473)

A stored credential entry, as produced by `getStoredSmartThingsTokens`
(id, label, enabled flag, decrypted token).  `resolveSmartThingsToken`
returns the single environment entry when `SMARTTHINGS_TOKEN` is truthy,
otherwise the enabled stored entries; with none it throws.  The entry
returned for the environment token carries no `enabled` field in the
source, so the resolved entries are modelled without one. -/

structure StoredToken where
  id : String
  label : String
  enabled : Bool
  token : String
deriving DecidableEq

/-- An entry as returned by `resolveSmartThingsToken` (only `id`, `label`
and `token` are ever read downstream; the env entry has no enabled flag). -/
structure ResolvedToken where
  id : String
  label : String
  token : String
deriving DecidableEq

def resolvedOfStored (e : StoredToken) : ResolvedToken :=
  ⟨e.id, e.label, e.token⟩

/-- Embedding of `resolveSmartThingsToken()`; `envToken` is
`process.env.SMARTTHINGS_TOKEN` (`none` = unset). -/
def resolveSmartThingsToken (envToken : Option String) (stored : List StoredToken) :
    Except String (List ResolvedToken) :=
  if jsStrFalsy envToken then
    let enabledEntries := (stored.filter (fun e => e.enabled)).map resolvedOfStored
    if enabledEntries = [] then .error "SMARTTHINGS_TOKEN fehlt"
    else .ok enabledEntries
  else
    .ok [⟨"env", "Env Token", envToken.getD ""⟩]

/-- The remote command a dispatch would issue (everything up to the
external `fetch`): device, chosen source entry, capability, command,
arguments. -/
structure CommandRequest where
  deviceId : String
  source : ResolvedToken
  capability : String
  command : String
  arguments : List String
deriving DecidableEq

/-- Embedding of `toggleSmartThingsDevice(deviceId, on, sourceId)` up to
the external `sendSmartThingsCommand` call: resolves the token list,
selects `tokens.find(t => t.id === sourceId)` when `sourceId` is truthy
and `tokens[0]` otherwise, and returns the `switch on/off` command
request it would send. -/
def toggleSmartThingsDevice (envToken : Option String) (stored : List StoredToken)
    (deviceId : String) (onDesired : Bool) (sourceId : Option String) :
    Except String CommandRequest :=
  match resolveSmartThingsToken envToken stored with
  | .error e => .error e
  | .ok tokens =>
    let tokenEntry :=
      match sourceId with
      | some s => if s = "" then tokens.head? else tokens.find? (fun t => t.id == s)
      | none => tokens.head?
    match tokenEntry with
    | none => .error "Token für Quelle nicht gefunden"
    | some e => .ok ⟨deviceId, e, "switch", if onDesired then "on" else "off", []⟩

/-- C10: vault decryption of an empty or absent blob returns `""` and
never fails with an integrity error, for every key and regardless of the
behaviour of the cipher primitives (so the cipher is never consulted). -/
theorem decryptSecret_falsy_payload_ok
    (b64decode : String → List Nat)
    (gcmOpen : List Nat → List Nat → List Nat → List Nat → Except String (List Nat))
    (utf8decode : List Nat → String) (key : List Nat) :
    decryptSecret b64decode gcmOpen utf8decode none key = .ok "" ∧
    decryptSecret b64decode gcmOpen utf8decode (some "") key = .ok "" := by
  constructor <;> rfl

/-- Helper: resolution with no environment token yields the enabled stored
entries, or the missing-token error when none is enabled. -/
theorem resolveSmartThingsToken_no_env (stored : List StoredToken) :
    resolveSmartThingsToken none stored =
      (if stored.filter (fun e => e.enabled) = [] then .error "SMARTTHINGS_TOKEN fehlt"
       else .ok ((stored.filter (fun e => e.enabled)).map resolvedOfStored)) := by
  simp only [resolveSmartThingsToken, jsStrFalsy, if_true]
  rcases h : stored.filter (fun e => e.enabled) with _ | ⟨e, tl⟩ <;> simp [h]

/-- Helper: searching the resolved image of a list by id agrees with
searching the underlying stored list. -/
theorem find?_map_resolved (l : List StoredToken) (s : String) :
    (l.map resolvedOfStored).find? (fun t => t.id == s)
      = (l.find? (fun t => t.id == s)).map resolvedOfStored := by
  induction l with
  | nil => rfl
  | cons a tl ih =>
    by_cases h : (a.id == s) = true
    · simp [List.find?, resolvedOfStored, h]
    · simp only [List.map_cons, List.find?]
      have h' : ((resolvedOfStored a).id == s) = (a.id == s) := rfl
      rw [h', Bool.of_not_eq_true h] at *
      simpa using ih

/-- C2 counterexample: with stored sources `a` (disabled) and `b`
(enabled) and an explicit `sourceId = "a"`, dispatch does NOT use entry
`a` — it fails with the source-not-found error, contradicting the claim
that an explicit sourceId is honoured regardless of the enabled flag. -/
theorem toggle_explicit_disabled_source_errors :
    toggleSmartThingsDevice none
      [⟨"a", "A", false, "ta"⟩, ⟨"b", "B", true, "tb"⟩] "dev" true (some "a")
      = .error "Token für Quelle nicht gefunden" := by
  rfl

/-- C2 (amended): with no environment token, an explicit non-empty
`sourceId` is looked up among the ENABLED stored entries only — a
matching enabled entry is used, a `sourceId` matching no enabled entry
fails with a source-not-found error (so a disabled entry is never used),
and when stored entries exist but none is enabled every dispatch fails
with the missing-token error.  With no `sourceId`, the first enabled
entry is used. -/
theorem toggle_source_resolution_enabled_only (stored : List StoredToken)
    (deviceId : String) (onDesired : Bool) :
    (∀ s e, s ≠ "" →
      (stored.filter (fun t => t.enabled)).find? (fun t => t.id == s) = some e →
      toggleSmartThingsDevice none stored deviceId onDesired (some s)
        = .ok ⟨deviceId, resolvedOfStored e, "switch",
               if onDesired then "on" else "off", []⟩) ∧
    (∀ s, s ≠ "" → stored.filter (fun t => t.enabled) ≠ [] →
      (stored.filter (fun t => t.enabled)).find? (fun t => t.id == s) = none →
      toggleSmartThingsDevice none stored deviceId onDesired (some s)
        = .error "Token für Quelle nicht gefunden") ∧
    (∀ e tl, stored.filter (fun t => t.enabled) = e :: tl →
      toggleSmartThingsDevice none stored deviceId onDesired none
        = .ok ⟨deviceId, resolvedOfStored e, "switch",
               if onDesired then "on" else "off", []⟩) ∧
    (stored.filter (fun t => t.enabled) = [] → ∀ sid,
      toggleSmartThingsDevice none stored deviceId onDesired sid
        = .error "SMARTTHINGS_TOKEN fehlt") := by
  refine ⟨?_, ?_, ?_, ?_⟩
  · intro s e hs hfound
    have hne : stored.filter (fun t => t.enabled) ≠ [] := by
      intro h0; rw [h0] at hfound; simp at hfound
    simp only [toggleSmartThingsDevice, resolveSmartThingsToken_no_env, if_neg hne,
      if_neg hs, find?_map_resolved, hfound]
    rfl
  · intro s hs hne hnone
    simp only [toggleSmartThingsDevice, resolveSmartThingsToken_no_env, if_neg hne,
      if_neg hs, find?_map_resolved, hnone]
    rfl
  · intro e tl hcons
    have hne : stored.filter (fun t => t.enabled) ≠ [] := by simp [hcons]
    simp only [toggleSmartThingsDevice, resolveSmartThingsToken_no_env, if_neg hne, hcons]
    rfl
  · intro h0 sid
    simp only [toggleSmartThingsDevice, resolveSmartThingsToken_no_env, if_pos h0]

/-- Witness for C2's amended theorem at the spec's own example: sources
`a` (disabled) and `b` (enabled). -/
theorem toggle_source_resolution_enabled_only_witness :
    toggleSmartThingsDevice none
      [⟨"a", "A", false, "ta"⟩, ⟨"b", "B", true, "tb"⟩] "dev" true (some "b")
      = .ok ⟨"dev", ⟨"b", "B", "tb"⟩, "switch", "on", []⟩ ∧
    toggleSmartThingsDevice none
      [⟨"a", "A", false, "ta"⟩, ⟨"b", "B", true, "tb"⟩] "dev" true (some "a")
      = .error "Token für Quelle nicht gefunden" ∧
    toggleSmartThingsDevice none
      [⟨"a", "A", false, "ta"⟩, ⟨"b", "B", true, "tb"⟩] "dev" true none
      = .ok ⟨"dev", ⟨"b", "B", "tb"⟩, "switch", "on", []⟩ ∧
    toggleSmartThingsDevice none [⟨"a", "A", false, "ta"⟩] "dev" false none
      = .error "SMARTTHINGS_TOKEN fehlt" := by
  have h := toggle_source_resolution_enabled_only
    [⟨"a", "A", false, "ta"⟩, ⟨"b", "B", true, "tb"⟩] "dev" true
  have h2 := toggle_source_resolution_enabled_only [⟨"a", "A", false, "ta"⟩] "dev" false
  refine ⟨?_, ?_, ?_, ?_⟩
  · simpa using h.1 "b" ⟨"b", "B", true, "tb"⟩ (by decide) (by rfl)
  · exact h.2.1 "a" (by decide) (by simp) (by rfl)
  · simpa using h.2.2.1 ⟨"b", "B", true, "tb"⟩ [] (by rfl)
  · exact h2.2.2.2 (by rfl) none

/-- C9: whenever the environment token is set (truthy), resolution
returns only the single `env` entry — stored entries are never used —
and an explicit `sourceId` other than `"env"` fails with the
source-not-found error even if a matching enabled stored entry exists,
while `sourceId = "env"` dispatches with the environment token. -/
theorem env_token_shadows_stored (t : String) (stored : List StoredToken)
    (deviceId : String) (onDesired : Bool) (ht : t ≠ "") :
    resolveSmartThingsToken (some t) stored = .ok [⟨"env", "Env Token", t⟩] ∧
    (∀ s, s ≠ "" → s ≠ "env" →
      toggleSmartThingsDevice (some t) stored deviceId onDesired (some s)
        = .error "Token für Quelle nicht gefunden") ∧
    toggleSmartThingsDevice (some t) stored deviceId onDesired (some "env")
      = .ok ⟨deviceId, ⟨"env", "Env Token", t⟩, "switch",
             if onDesired then "on" else "off", []⟩ := by
  have hres : resolveSmartThingsToken (some t) stored = .ok [⟨"env", "Env Token", t⟩] := by
    simp [resolveSmartThingsToken, jsStrFalsy, ht]
  refine ⟨hres, ?_, ?_⟩
  · intro s hs hsenv
    simp only [toggleSmartThingsDevice, hres, if_neg hs]
    have : (("env" : String) == s) = false := by
      simp [beq_iff_eq]; exact fun h => hsenv h.symm
    simp [List.find?, this]
  · simp only [toggleSmartThingsDevice, hres]
    norm_num [List.find?]

/-- Witness for C9: env token `"tok"`, one matching enabled stored entry
`a`; the explicit `sourceId = "a"` still fails. -/
theorem env_token_shadows_stored_witness :
    resolveSmartThingsToken (some "tok") [⟨"a", "A", true, "ta"⟩]
      = .ok [⟨"env", "Env Token", "tok"⟩] ∧
    toggleSmartThingsDevice (some "tok") [⟨"a", "A", true, "ta"⟩] "dev" true (some "a")
      = .error "Token für Quelle nicht gefunden" ∧
    toggleSmartThingsDevice (some "tok") [⟨"a", "A", true, "ta"⟩] "dev" true (some "env")
      = .ok ⟨"dev", ⟨"env", "Env Token", "tok"⟩, "switch", "on", []⟩ := by
  have h := env_token_shadows_stored "tok" [⟨"a", "A", true, "ta"⟩] "dev" true (by decide)
  exact ⟨h.1, h.2.1 "a" (by decide) (by decide), by simpa using h.2.2⟩

/-! ## Routine store — payload validation
(`isValidTimeString` line 189, `normalizeDays` line 193,
`normalizeActions` line 204, `buildRoutineFromPayload` line 241,
`MAX_ACTIONS_PER_ROUTINE` line 31 of part_003)

Raw payload values carry `Option` for absent (`undefined`) JSON keys.
The fresh random ids drawn inside `normalizeActions`
(`action.id || crypto.randomBytes(6)...`) are modelled as `none`
("a fresh random id"); the routine's own fresh id is an explicit
parameter. -/

def MAX_ACTIONS_PER_ROUTINE : Nat := 20

/-- A raw action object of a create/update payload. -/
structure RawAction where
  id : Option String := none
  deviceId : Option String := none
  sourceId : Option String := none
  deviceName : Option String := none
  type : Option String := none
  /-- `action.desiredState` when it is a boolean, else `none`. -/
  desiredState : Option Bool := none
  /-- The JS field `on` (reserved in Lean) when it is a boolean, else `none`. -/
  onValue : Option Bool := none
  capability : Option String := none
  command : Option String := none
  /-- `action.arguments` when it is an array (values modelled opaquely). -/
  arguments : Option (List String) := none
deriving DecidableEq

/-- Common fields of a normalized action (`base` in the source);
`id = none` stands for the fresh random id drawn when `action.id` is falsy. -/
structure ActBase where
  id : Option String
  deviceId : String
  sourceId : Option String
  deviceName : Option String
deriving DecidableEq

/-- The variant of a normalized (or disk-loaded) action.  `other` stands
for any stored action whose `type` is neither of the two supported ones;
`normalizeActions` never produces it, but `runRoutineActions` must
handle it. -/
inductive ActKind where
  | toggle (desiredState : Bool)
  | command (capability : String) (command : String) (arguments : List String)
  | other
deriving DecidableEq

structure NormAction where
  base : ActBase
  kind : ActKind
deriving DecidableEq

/-- One iteration of the `normalizeActions` loop: `none` when the action
is dropped (`continue` without push), otherwise the pushed entry. -/
def normOne (a : RawAction) : Option NormAction :=
  if jsStrFalsy a.deviceId then none
  else
    let base : ActBase :=
      { id := if jsStrFalsy a.id then none else a.id,
        deviceId := a.deviceId.getD "",
        sourceId := if jsStrFalsy a.sourceId then none else a.sourceId,
        deviceName := match a.deviceName with
          | some n => if n = "" then none else some (jsSlice 120 n)
          | none => none }
    match a.type with
    | some "device_toggle" =>
      match a.desiredState with
      | some b => some ⟨base, .toggle b⟩
      | none =>
        match a.onValue with
        | some b => some ⟨base, .toggle b⟩
        | none => none
    | some "device_command" =>
      let cap := jsTrim (a.capability.getD "")
      let cmd := jsTrim (a.command.getD "")
      if cap = "" ∨ cmd = "" then none
      else some ⟨base, .command cap cmd (a.arguments.getD [])⟩
    | _ => none

/-- The collection loop of `normalizeActions` (before the final `slice`). -/
def normalizeActionsGo : List RawAction → List NormAction
  | [] => []
  | a :: rest =>
    match normOne a with
    | some n => n :: normalizeActionsGo rest
    | none => normalizeActionsGo rest

/-- Embedding of `normalizeActions` (the array-vs-single-object wrapping
of its argument is done by the caller of this embedding). -/
def normalizeActions (raw : List RawAction) : List NormAction :=
  (normalizeActionsGo raw).take MAX_ACTIONS_PER_ROUTINE

/-- Embedding of `isValidTimeString`: `String(value || "").trim()` must
match `^([01]\d|2[0-3]):[0-5]\d$`. -/
def isValidTimeString (v : Option String) : Bool :=
  match (jsTrim (v.getD "")).toList with
  | [h1, h2, c, m1, m2] =>
    ((h1 == '0' || h1 == '1') && h2.isDigit
      || h1 == '2' && (decide ('0' ≤ h2) && decide (h2 ≤ '3'))) &&
    c == ':' && (decide ('0' ≤ m1) && decide (m1 ≤ '5')) && m2.isDigit
  | _ => false

/-- First-occurrence de-duplication (the `Array.from(new Set(...))` of
`normalizeDays`). -/
def dedupFirstAux (seen : List Int) : List Int → List Int
  | [] => []
  | d :: rest =>
    if d ∈ seen then dedupFirstAux seen rest
    else d :: dedupFirstAux (d :: seen) rest

/-- Embedding of `normalizeDays` on a raw payload value: keep the
integers in `[0,6]`, de-duplicated. -/
def normalizeDays (days : Option (List JSNum)) : List Int :=
  dedupFirstAux []
    ((days.getD []).filterMap fun d =>
      match d with
      | .nan => none
      | .val q => if q.den = 1 ∧ 0 ≤ q ∧ q ≤ 6 then some q.num else none)

/-- `normalizeDays` as re-applied by the scheduler to an already stored
(integer) day list. -/
def renormalizeDays (days : List Int) : List Int :=
  dedupFirstAux [] (days.filter fun d => decide (0 ≤ d) && decide (d ≤ 6))

/-- A stored routine trigger. -/
inductive Trigger where
  | time (hhmm : String) (days : List Int)
  | interval (everyMinutes : ℚ)
deriving DecidableEq

/-- A stored routine record.  The create base in the source sets only
`id`, `createdAt` and `lastRunAt`; the remaining fields start out
`undefined` (modelled by the defaults here — an `undefined` `enabled`
is falsy, i.e. `false`). -/
structure Routine where
  id : String
  name : Option String := none
  enabled : Bool := false
  trigger : Option Trigger := none
  actions : List NormAction := []
  createdAt : Int := 0
  updatedAt : Int := 0
  lastRunAt : Option Int := none
deriving DecidableEq

/-- A raw `trigger` object of a payload (`everyMinutes` already passed
through `Number(...)`, so an absent or non-numeric value is `.nan`). -/
structure RawTrigger where
  type : Option String := none
  time : Option String := none
  days : Option (List JSNum) := none
  everyMinutes : JSNum := .nan
deriving DecidableEq

/-- A create/update payload; `none` = the key is absent. -/
structure RoutinePayload where
  name : Option String := none
  enabled : Option Bool := none
  trigger : Option RawTrigger := none
  actions : Option (List RawAction) := none
  action : Option (List RawAction) := none
deriving DecidableEq

/-- `Math.max(1, Math.min(1440, Number(trigger.everyMinutes) || 0))`. -/
def clampEvery (em : JSNum) : ℚ :=
  max 1 (min 1440 (jsOrZero em))

/-- The `payload.name` section of `buildRoutineFromPayload`. -/
def applyName (p : RoutinePayload) (base : Routine) : Except String Routine :=
  match p.name with
  | none => .ok base
  | some nm =>
    let s := jsTrim nm
    if s = "" then .error "Name fehlt"
    else .ok { base with name := some (jsSlice 120 s) }

/-- The `payload.enabled` section (never fails). -/
def applyEnabled (p : RoutinePayload) (isCreate : Bool) (base : Routine) : Routine :=
  match p.enabled with
  | some b => { base with enabled := b }
  | none => if isCreate then { base with enabled := true } else base

/-- The `payload.trigger` section.  The dead `if (!everyMinutes)` reject
branch of the source is kept as the `e = 0` test. -/
def applyTrigger (p : RoutinePayload) (isCreate : Bool) (base : Routine) :
    Except String Routine :=
  match p.trigger with
  | none => if isCreate then .error "Trigger fehlt" else .ok base
  | some t =>
    match t.type with
    | some "time" =>
      if isValidTimeString t.time then
        .ok { base with trigger := some (.time (jsTrim (t.time.getD "")) (normalizeDays t.days)) }
      else .error "Ungültiger Trigger"
    | some "interval" =>
      let e := clampEvery t.everyMinutes
      if e = 0 then .error "Ungültiger Trigger"
      else .ok { base with trigger := some (.interval e) }
    | _ => .error "Ungültiger Trigger"

/-- The `payload.actions || payload.action` section. -/
def applyActions (p : RoutinePayload) (isCreate : Bool) (base : Routine) :
    Except String Routine :=
  match p.actions, p.action with
  | none, none => if isCreate then .error "Aktionen fehlen" else .ok base
  | pa, pb =>
    let raw := (pa.orElse (fun _ => pb)).getD []
    let acts := normalizeActions raw
    if acts = [] then .error "Ungültige Aktionen"
    else .ok { base with actions := acts }

/-- The create base `{ id, createdAt: now, lastRunAt: null }`. -/
def createBase (now : Int) (freshId : String) : Routine :=
  { id := freshId, createdAt := now, lastRunAt := none }

/-- Embedding of `buildRoutineFromPayload(payload, existing)`; `now` is
`Date.now()` and `freshId` the random id drawn on create. -/
def buildRoutineFromPayload (now : Int) (freshId : String) (p : RoutinePayload)
    (existing : Option Routine) : Except String Routine :=
  let base0 := match existing with
    | some ex => ex
    | none => createBase now freshId
  match applyName p base0 with
  | .error e => .error e
  | .ok b1 =>
    let b2 := applyEnabled p existing.isNone b1
    match applyTrigger p existing.isNone b2 with
    | .error e => .error e
    | .ok b3 =>
      match applyActions p existing.isNone b3 with
      | .error e => .error e
      | .ok b4 => .ok { b4 with updatedAt := now }

/-- Helper: fields other than `name` survive `applyName`; an absent
`name` key leaves `name` untouched as well. -/
theorem applyName_frame (p : RoutinePayload) (base b : Routine)
    (h : applyName p base = .ok b) :
    b.id = base.id ∧ b.enabled = base.enabled ∧ b.trigger = base.trigger ∧
    b.actions = base.actions ∧ b.createdAt = base.createdAt ∧
    b.updatedAt = base.updatedAt ∧ b.lastRunAt = base.lastRunAt ∧
    (p.name = none → b.name = base.name) := by
  cases hn : p.name with
  | none =>
    simp only [applyName, hn, Except.ok.injEq] at h
    subst h; simp
  | some nm =>
    simp only [applyName, hn] at h
    split at h
    · simp at h
    · simp only [Except.ok.injEq] at h
      subst h; simp [hn]

/-- Helper: fields other than `enabled` survive `applyEnabled`; on an
update with no `enabled` key, `enabled` is untouched as well. -/
theorem applyEnabled_frame (p : RoutinePayload) (ic : Bool) (base : Routine) :
    (applyEnabled p ic base).id = base.id ∧
    (applyEnabled p ic base).name = base.name ∧
    (applyEnabled p ic base).trigger = base.trigger ∧
    (applyEnabled p ic base).actions = base.actions ∧
    (applyEnabled p ic base).createdAt = base.createdAt ∧
    (applyEnabled p ic base).updatedAt = base.updatedAt ∧
    (applyEnabled p ic base).lastRunAt = base.lastRunAt ∧
    (p.enabled = none → ic = false → (applyEnabled p ic base).enabled = base.enabled) := by
  cases hp : p.enabled <;> cases ic <;> simp [applyEnabled, hp]

/-- Helper: fields other than `trigger` survive a successful
`applyTrigger`; an absent `trigger` key leaves `trigger` untouched. -/
theorem applyTrigger_frame (p : RoutinePayload) (ic : Bool) (base b : Routine)
    (h : applyTrigger p ic base = .ok b) :
    b.id = base.id ∧ b.name = base.name ∧ b.enabled = base.enabled ∧
    b.actions = base.actions ∧ b.createdAt = base.createdAt ∧
    b.updatedAt = base.updatedAt ∧ b.lastRunAt = base.lastRunAt ∧
    (p.trigger = none → b.trigger = base.trigger) := by
  cases ht : p.trigger with
  | none =>
    simp only [applyTrigger, ht] at h
    cases ic
    · simp only [Bool.false_eq_true, if_false, Except.ok.injEq] at h
      subst h; simp
    · simp at h
  | some t =>
    simp only [applyTrigger, ht] at h
    split at h
    · split at h
      · simp only [Except.ok.injEq] at h
        subst h; simp [ht]
      · simp at h
    · split at h
      · simp at h
      · simp only [Except.ok.injEq] at h
        subst h; simp [ht]
    · simp at h

/-- Helper: fields other than `actions` survive a successful
`applyActions`; with neither `actions` nor `action` present the stored
list is untouched. -/
theorem applyActions_frame (p : RoutinePayload) (ic : Bool) (base b : Routine)
    (h : applyActions p ic base = .ok b) :
    b.id = base.id ∧ b.name = base.name ∧ b.enabled = base.enabled ∧
    b.trigger = base.trigger ∧ b.createdAt = base.createdAt ∧
    b.updatedAt = base.updatedAt ∧ b.lastRunAt = base.lastRunAt ∧
    (p.actions = none → p.action = none → b.actions = base.actions) := by
  cases hpa : p.actions with
  | none =>
    cases hpb : p.action with
    | none =>
      simp only [applyActions, hpa, hpb] at h
      cases ic
      · simp only [Bool.false_eq_true, if_false, Except.ok.injEq] at h
        subst h; simp
      · simp at h
    | some l =>
      simp only [applyActions, hpa, hpb] at h
      split at h
      · simp at h
      · simp only [Except.ok.injEq] at h
        subst h; simp [hpb]
  | some l =>
    simp only [applyActions, hpa] at h
    split at h
    · simp at h
    · simp only [Except.ok.injEq] at h
      subst h; simp [hpa]

/-- C7: a successful update replaces only the top-level keys present in
the payload; `id`, `createdAt` and `lastRunAt` always keep their prior
values, every omitted key (`name`, `enabled`, `trigger`, `actions` —
where `action` is the accepted singular spelling of `actions`) retains
its prior value, and `updatedAt` is set to `now` on every successful
update and create. -/
theorem routine_update_partial_merge (now : Int) (freshId : String) (p : RoutinePayload) :
    (∀ ex r, buildRoutineFromPayload now freshId p (some ex) = .ok r →
      r.id = ex.id ∧ r.createdAt = ex.createdAt ∧ r.lastRunAt = ex.lastRunAt ∧
      r.updatedAt = now ∧
      (p.name = none → r.name = ex.name) ∧
      (p.enabled = none → r.enabled = ex.enabled) ∧
      (p.trigger = none → r.trigger = ex.trigger) ∧
      (p.actions = none → p.action = none → r.actions = ex.actions)) ∧
    (∀ r, buildRoutineFromPayload now freshId p none = .ok r → r.updatedAt = now) := by
  constructor
  · intro ex r h
    simp only [buildRoutineFromPayload, Option.isNone_some] at h
    cases h1 : applyName p ex with
    | error e => rw [h1] at h; simp at h
    | ok b1 =>
      rw [h1] at h; dsimp only at h
      cases h3 : applyTrigger p false (applyEnabled p false b1) with
      | error e => rw [h3] at h; simp at h
      | ok b3 =>
        rw [h3] at h; dsimp only at h
        cases h4 : applyActions p false b3 with
        | error e => rw [h4] at h; simp at h
        | ok b4 =>
          rw [h4] at h
          simp only [Except.ok.injEq] at h
          subst h
          obtain ⟨n1, n2, n3, n4, n5, n6, n7, n8⟩ := applyName_frame p ex b1 h1
          obtain ⟨e1, e2, e3, e4, e5, e6, e7, e8⟩ := applyEnabled_frame p false b1
          obtain ⟨t1, t2, t3, t4, t5, t6, t7, t8⟩ :=
            applyTrigger_frame p false (applyEnabled p false b1) b3 h3
          obtain ⟨a1, a2, a3, a4, a5, a6, a7, a8⟩ := applyActions_frame p false b3 b4 h4
          refine ⟨?_, ?_, ?_, rfl, ?_, ?_, ?_, ?_⟩
          · exact a1.trans (t1.trans (e1.trans n1))
          · exact a5.trans (t5.trans (e5.trans n5))
          · exact a7.trans (t7.trans (e7.trans n7))
          · intro hn
            exact a2.trans (t2.trans (e2.trans (n8 hn)))
          · intro he
            exact a3.trans (t3.trans ((e8 he rfl).trans n2))
          · intro htr
            exact a4.trans ((t8 htr).trans (e3.trans n3))
          · intro hac1 hac2
            exact (a8 hac1 hac2).trans (t4.trans (e4.trans n4))
  · intro r h
    simp only [buildRoutineFromPayload, Option.isNone_none] at h
    cases h1 : applyName p (createBase now freshId) with
    | error e => rw [h1] at h; simp at h
    | ok b1 =>
      rw [h1] at h; dsimp only at h
      cases h3 : applyTrigger p true (applyEnabled p true b1) with
      | error e => rw [h3] at h; simp at h
      | ok b3 =>
        rw [h3] at h; dsimp only at h
        cases h4 : applyActions p true b3 with
        | error e => rw [h4] at h; simp at h
        | ok b4 =>
          rw [h4] at h
          simp only [Except.ok.injEq] at h
          subst h; rfl

/-- Witness for C7: updating only the `enabled` flag of a stored routine
keeps id, name, trigger, actions, createdAt and lastRunAt, and refreshes
`updatedAt`. -/
theorem routine_update_partial_merge_witness :
    buildRoutineFromPayload 2000 "fresh" { enabled := some false }
      (some { id := "r1", name := some "N", enabled := true,
              trigger := some (.interval 5),
              actions := [⟨⟨some "a1", "d1", none, none⟩, .toggle true⟩],
              createdAt := 1, updatedAt := 10, lastRunAt := some 7 })
      = .ok { id := "r1", name := some "N", enabled := false,
              trigger := some (.interval 5),
              actions := [⟨⟨some "a1", "d1", none, none⟩, .toggle true⟩],
              createdAt := 1, updatedAt := 2000, lastRunAt := some 7 } ∧
    ({ id := "r1", name := some "N", enabled := false,
       trigger := some (.interval 5),
       actions := [⟨⟨some "a1", "d1", none, none⟩, .toggle true⟩],
       createdAt := 1, updatedAt := 2000, lastRunAt := some 7 } : Routine).id = "r1" ∧
    ({ id := "r1", name := some "N", enabled := false,
       trigger := some (.interval 5),
       actions := [⟨⟨some "a1", "d1", none, none⟩, .toggle true⟩],
       createdAt := 1, updatedAt := 2000, lastRunAt := some 7 } : Routine).createdAt = 1 ∧
    ({ id := "r1", name := some "N", enabled := false,
       trigger := some (.interval 5),
       actions := [⟨⟨some "a1", "d1", none, none⟩, .toggle true⟩],
       createdAt := 1, updatedAt := 2000, lastRunAt := some 7 } : Routine).lastRunAt = some 7 ∧
    ({ id := "r1", name := some "N", enabled := false,
       trigger := some (.interval 5),
       actions := [⟨⟨some "a1", "d1", none, none⟩, .toggle true⟩],
       createdAt := 1, updatedAt := 2000, lastRunAt := some 7 } : Routine).updatedAt = 2000 ∧
    ({ id := "r1", name := some "N", enabled := false,
       trigger := some (.interval 5),
       actions := [⟨⟨some "a1", "d1", none, none⟩, .toggle true⟩],
       createdAt := 1, updatedAt := 2000, lastRunAt := some 7 } : Routine).name = some "N" := by
  have hb : buildRoutineFromPayload 2000 "fresh" { enabled := some false }
      (some { id := "r1", name := some "N", enabled := true,
              trigger := some (.interval 5),
              actions := [⟨⟨some "a1", "d1", none, none⟩, .toggle true⟩],
              createdAt := 1, updatedAt := 10, lastRunAt := some 7 })
      = .ok { id := "r1", name := some "N", enabled := false,
              trigger := some (.interval 5),
              actions := [⟨⟨some "a1", "d1", none, none⟩, .toggle true⟩],
              createdAt := 1, updatedAt := 2000, lastRunAt := some 7 } := by rfl
  have h := (routine_update_partial_merge 2000 "fresh" { enabled := some false }).1
    _ _ hb
  exact ⟨hb, h.1, h.2.1, h.2.2.1, h.2.2.2.1, h.2.2.2.2.1 rfl⟩

/-- C1 (documents the code bug): the clamp `Math.max(1, Math.min(1440,
Number(everyMinutes) || 0))` always lands in `[1,1440]`, so the
subsequent `if (!everyMinutes)` reject branch is unreachable — a
creation payload with `everyMinutes = 0` (or `NaN`) is NOT rejected but
silently stored with `everyMinutes = 1`. -/
theorem everyMinutes_zero_silently_clamped :
    (∀ em, 1 ≤ clampEvery em ∧ clampEvery em ≤ 1440) ∧
    buildRoutineFromPayload 1000 "rid"
      { name := some "Test",
        trigger := some { type := some "interval", everyMinutes := .val 0 },
        actions := some [{ id := some "a1", deviceId := some "dev1",
                           type := some "device_toggle", desiredState := some true }] }
      none
      = .ok { id := "rid", name := some "Test", enabled := true,
              trigger := some (.interval 1),
              actions := [⟨⟨some "a1", "dev1", none, none⟩, .toggle true⟩],
              createdAt := 1000, updatedAt := 1000, lastRunAt := none } ∧
    buildRoutineFromPayload 1000 "rid"
      { name := some "Test",
        trigger := some { type := some "interval", everyMinutes := .nan },
        actions := some [{ id := some "a1", deviceId := some "dev1",
                           type := some "device_toggle", desiredState := some true }] }
      none
      = .ok { id := "rid", name := some "Test", enabled := true,
              trigger := some (.interval 1),
              actions := [⟨⟨some "a1", "dev1", none, none⟩, .toggle true⟩],
              createdAt := 1000, updatedAt := 1000, lastRunAt := none } := by
  refine ⟨?_, by rfl, by rfl⟩
  intro em
  refine ⟨le_max_left _ _, ?_⟩
  exact max_le (by norm_num) (min_le_left _ _)

/-- Helper: the collection loop of `normalizeActions` is a `filterMap`
over the per-action normalization. -/
theorem normalizeActionsGo_eq_filterMap (raw : List RawAction) :
    normalizeActionsGo raw = raw.filterMap normOne := by
  induction raw with
  | nil => rfl
  | cons a tl ih =>
    cases h : normOne a <;>
      simp [normalizeActionsGo, h, ih, List.filterMap_cons]

/-- C8: per-action validation — an action with a falsy `deviceId`, a
toggle without a boolean desired state (in either spelling), and a
command with a blank capability or command are each dropped
individually; the surviving actions are kept in order and truncated to
the first 20; a request that supplies an action list whose surviving
normalization is empty can never build a routine. -/
theorem actions_validation_rules :
    (∀ a, jsStrFalsy a.deviceId = true → normOne a = none) ∧
    (∀ a, a.type = some "device_toggle" → a.desiredState = none → a.onValue = none →
      normOne a = none) ∧
    (∀ a, a.type = some "device_command" →
      (jsTrim (a.capability.getD "") = "" ∨ jsTrim (a.command.getD "") = "") →
      normOne a = none) ∧
    (∀ raw, normalizeActions raw = (raw.filterMap normOne).take MAX_ACTIONS_PER_ROUTINE) ∧
    (∀ raw, (normalizeActions raw).length ≤ 20) ∧
    (∀ (now : Int) (freshId : String) (p : RoutinePayload) (ex : Option Routine),
      (p.actions ≠ none ∨ p.action ≠ none) →
      normalizeActions ((p.actions.orElse (fun _ => p.action)).getD []) = [] →
      ∀ r, buildRoutineFromPayload now freshId p ex ≠ .ok r) := by
  refine ⟨?_, ?_, ?_, ?_, ?_, ?_⟩
  · intro a ha; simp [normOne, ha]
  · intro a ht hd ho
    by_cases hf : jsStrFalsy a.deviceId = true <;>
      simp [normOne, ht, hd, ho, hf]
  · intro a ht hcc
    by_cases hf : jsStrFalsy a.deviceId = true
    · simp [normOne, hf]
    · simp only [normOne, hf, if_false, Bool.not_eq_true] at *
      rw [ht]
      simp [hcc]
  · intro raw
    simp [normalizeActions, normalizeActionsGo_eq_filterMap]
  · intro raw
    simp only [normalizeActions, MAX_ACTIONS_PER_ROUTINE, List.length_take]
    omega
  · intro now freshId p ex hsome hempty r
    have hact : ∀ ic base, applyActions p ic base = .error "Ungültige Aktionen" := by
      intro ic base
      rcases hpa : p.actions with _ | l
      · rcases hpb : p.action with _ | l2
        · rcases hsome with hc | hc
          · exact absurd hpa hc
          · exact absurd hpb hc
        · rw [hpa, hpb] at hempty
          simp only [Option.orElse, Option.getD] at hempty
          simp [applyActions, hpa, hpb, hempty]
      · rw [hpa] at hempty
        simp only [Option.orElse, Option.getD] at hempty
        rcases hpb : p.action with _ | l2 <;>
          simp [applyActions, hpa, hpb, hempty]
    intro h
    simp only [buildRoutineFromPayload] at h
    generalize (match ex with | some e => e | none => createBase now freshId) = b0 at h
    generalize ex.isNone = ic at h
    cases h1 : applyName p b0 with
    | error e => rw [h1] at h; simp at h
    | ok b1 =>
      rw [h1] at h; dsimp only at h
      cases h3 : applyTrigger p ic (applyEnabled p ic b1) with
      | error e => rw [h3] at h; simp at h
      | ok b3 =>
        rw [h3] at h; dsimp only at h
        rw [hact ic b3] at h
        simp at h

/-- Witness for C8 at concrete inputs: a toggle without a desired state
and a command with a blank capability are dropped, a surviving toggle is
kept, and a payload whose only action is dropped cannot create a
routine. -/
theorem actions_validation_rules_witness :
    normOne { type := some "device_toggle", desiredState := some true } = none ∧
    normOne { deviceId := some "d", type := some "device_toggle" } = none ∧
    normOne { deviceId := some "d", type := some "device_command", capability := some "  ", command := some "x" } = none ∧
    normalizeActions
      [{ deviceId := some "d", type := some "device_toggle" },
       { id := some "a1", deviceId := some "d", type := some "device_toggle", desiredState := some false }]
      = [⟨⟨some "a1", "d", none, none⟩, .toggle false⟩] ∧
    (normalizeActions
      [{ deviceId := some "d", type := some "device_toggle" },
       { id := some "a1", deviceId := some "d", type := some "device_toggle", desiredState := some false }]).length ≤ 20 ∧
    buildRoutineFromPayload 1 "rid"
      { name := some "N", trigger := some { type := some "interval", everyMinutes := .val 5 },
        actions := some [{ deviceId := some "d", type := some "device_toggle" }] }
      none
      ≠ .ok { id := "rid" } := by
  have h := actions_validation_rules
  refine ⟨?_, ?_, ?_, ?_, ?_, ?_⟩
  · exact h.1 { type := some "device_toggle", desiredState := some true } (by rfl)
  · exact h.2.1 { deviceId := some "d", type := some "device_toggle" } rfl rfl rfl
  · exact h.2.2.1
      { deviceId := some "d", type := some "device_command", capability := some "  ", command := some "x" }
      rfl (Or.inl (by rfl))
  · have h4 := h.2.2.2.1
      [{ deviceId := some "d", type := some "device_toggle" },
       { id := some "a1", deviceId := some "d", type := some "device_toggle", desiredState := some false }]
    rw [h4]; rfl
  · exact h.2.2.2.2.1
      [{ deviceId := some "d", type := some "device_toggle" },
       { id := some "a1", deviceId := some "d", type := some "device_toggle", desiredState := some false }]
  · exact h.2.2.2.2.2 1 "rid"
      { name := some "N", trigger := some { type := some "interval", everyMinutes := .val 5 },
        actions := some [{ deviceId := some "d", type := some "device_toggle" }] }
      none (Or.inl (by simp)) (by rfl) { id := "rid" }

/-! ## Scheduler
(`routineRunTracker` line 626 and `evaluateRoutines` lines 672–716 of
part_003)

The tracker `Map` is modelled as an association list; a single
evaluation pass threads it through the routines in order.  All
`Date`-derived views of one pass (`toTimeString().slice(0,5)`,
`toDateString()`, `getDay()`, `Date.now()`) are collected in `Clock`. -/

/-- A consistent view of `new Date()` during one evaluation pass. -/
structure Clock where
  hhmm : String
  dateString : String
  day : Int
  nowMs : Int
deriving DecidableEq

/-- The slot key `${now.toDateString()}-${hhmm}` of a pass. -/
def slotKey (c : Clock) : String :=
  c.dateString ++ "-" ++ c.hhmm

/-- `routineRunTracker.get(id)`. -/
def trackerGet : List (String × String) → String → Option String
  | [], _ => none
  | (k, v) :: rest, i => if k = i then some v else trackerGet rest i

/-- `routineRunTracker.set(id, key)` (overwrites any previous binding). -/
def trackerSet (tr : List (String × String)) (i v : String) :
    List (String × String) :=
  (i, v) :: tr.filter (fun e => e.1 != i)

/-- The outcome of evaluating one routine in a pass: the (possibly
`lastRunAt`-stamped) routine, the tracker afterwards, and whether the
routine fired (its actions were launched). -/
structure StepResult where
  routine : Routine
  tracker : List (String × String)
  fired : Bool
deriving DecidableEq

/-- One iteration of the `evaluateRoutines` map callback (the shared
mutable tracker is threaded explicitly; the fire-and-forget
`runRoutineActions` launch is reported via `fired`). -/
def evalRoutineStep (clock : Clock) (tracker : List (String × String))
    (r : Routine) : StepResult :=
  if !r.enabled then ⟨r, tracker, false⟩
  else
    match r.trigger with
    | none => ⟨r, tracker, false⟩
    | some (.time t ds) =>
      if t = clock.hhmm then
        let days := renormalizeDays ds
        if days ≠ [] ∧ clock.day ∉ days then ⟨r, tracker, false⟩
        else
          let key := slotKey clock
          if trackerGet tracker r.id = some key then ⟨r, tracker, false⟩
          else ⟨{ r with lastRunAt := some clock.nowMs },
                trackerSet tracker r.id key, true⟩
      else ⟨r, tracker, false⟩
    | some (.interval em) =>
      let e := clampEvery (.val em)
      let last := r.lastRunAt.getD 0
      if e * 60 * 1000 ≤ ((clock.nowMs - last : Int) : ℚ) then
        ⟨{ r with lastRunAt := some clock.nowMs }, tracker, true⟩
      else ⟨r, tracker, false⟩

/-- A full `evaluateRoutines` pass: updated routine list (in order), the
tracker afterwards, and the `changed` flag. -/
def evaluateRoutines (clock : Clock) :
    List (String × String) → List Routine →
    List Routine × List (String × String) × Bool
  | tr, [] => ([], tr, false)
  | tr, r :: rest =>
    let s := evalRoutineStep clock tr r
    let out := evaluateRoutines clock s.tracker rest
    (s.routine :: out.1, out.2.1, s.fired || out.2.2)

/-- Helper: reading back the key just recorded for a routine id. -/
theorem trackerGet_set_self (tr : List (String × String)) (i v : String) :
    trackerGet (trackerSet tr i v) i = some v := by
  simp [trackerSet, trackerGet]

/-- C3: the run tracker suppresses duplicate fires of a time-triggered
routine within one slot: whenever the tracker already records the
current slot key for the routine's id, the evaluation does not fire it
(and leaves both the routine and the tracker untouched); conversely,
whenever a time-triggered routine fires, the new tracker records the
current slot key for its id, and the routine's id and trigger are
unchanged — so every later evaluation of it at the same slot key does
not fire. -/
theorem time_trigger_slot_dedup (clock : Clock) (tracker : List (String × String))
    (r : Routine) (t : String) (ds : List Int)
    (htr : r.trigger = some (.time t ds)) :
    (trackerGet tracker r.id = some (slotKey clock) →
      (evalRoutineStep clock tracker r).fired = false ∧
      (evalRoutineStep clock tracker r).tracker = tracker ∧
      (evalRoutineStep clock tracker r).routine = r) ∧
    ((evalRoutineStep clock tracker r).fired = true →
      trackerGet (evalRoutineStep clock tracker r).tracker r.id
        = some (slotKey clock) ∧
      (evalRoutineStep clock tracker r).routine.id = r.id ∧
      (evalRoutineStep clock tracker r).routine.trigger = r.trigger) := by
  by_cases he : r.enabled = true
  · by_cases hm : t = clock.hhmm
    · by_cases hd : renormalizeDays ds ≠ [] ∧ clock.day ∉ renormalizeDays ds
      · simp [evalRoutineStep, htr, he, hm, hd]
      · by_cases hk : trackerGet tracker r.id = some (slotKey clock)
        · simp [evalRoutineStep, htr, he, hm, hd, hk]
        · simp [evalRoutineStep, htr, he, hm, hd, hk, trackerGet_set_self]
    · simp [evalRoutineStep, htr, he, hm]
  · have he' : r.enabled = false := by
      cases hb : r.enabled
      · rfl
      · exact absurd hb he
    simp [evalRoutineStep, htr, he']

/-- Witness for C3: a matching time routine fires on the first
evaluation of a pass and does not fire again when re-evaluated at the
same slot with the tracker produced by the first evaluation. -/
theorem time_trigger_slot_dedup_witness :
    (evalRoutineStep ⟨"12:00", "Mon Jan 01 2024", 1, 1700000000000⟩ []
      { id := "r1", enabled := true, trigger := some (.time "12:00" []) }).fired
      = true ∧
    (evalRoutineStep ⟨"12:00", "Mon Jan 01 2024", 1, 1700000000000⟩
      (evalRoutineStep ⟨"12:00", "Mon Jan 01 2024", 1, 1700000000000⟩ []
        { id := "r1", enabled := true, trigger := some (.time "12:00" []) }).tracker
      (evalRoutineStep ⟨"12:00", "Mon Jan 01 2024", 1, 1700000000000⟩ []
        { id := "r1", enabled := true, trigger := some (.time "12:00" []) }).routine).fired
      = false := by
  have h := time_trigger_slot_dedup ⟨"12:00", "Mon Jan 01 2024", 1, 1700000000000⟩
    (evalRoutineStep ⟨"12:00", "Mon Jan 01 2024", 1, 1700000000000⟩ []
      { id := "r1", enabled := true, trigger := some (.time "12:00" []) }).tracker
    (evalRoutineStep ⟨"12:00", "Mon Jan 01 2024", 1, 1700000000000⟩ []
      { id := "r1", enabled := true, trigger := some (.time "12:00" []) }).routine
    "12:00" [] (by rfl)
  exact ⟨by rfl, (h.1 (by rfl)).1⟩

/-- C6: an enabled interval routine fires exactly when
`now − (lastRunAt || 0) ≥ clampedEveryMinutes × 60000`; the clamped
value lies in `[1,1440]`, so with an unset `lastRunAt` the routine fires
at any wall-clock time past the first day of the epoch (in particular on
the first evaluation at any realistic `Date.now()`). -/
theorem interval_trigger_due_iff (clock : Clock) (tracker : List (String × String))
    (r : Routine) (em : ℚ) (he : r.enabled = true)
    (htr : r.trigger = some (.interval em)) :
    ((evalRoutineStep clock tracker r).fired = true ↔
      clampEvery (.val em) * 60 * 1000 ≤ ((clock.nowMs - r.lastRunAt.getD 0 : Int) : ℚ)) ∧
    (r.lastRunAt = none → (86400000 : Int) ≤ clock.nowMs →
      (evalRoutineStep clock tracker r).fired = true) ∧
    1 ≤ clampEvery (.val em) ∧ clampEvery (.val em) ≤ 1440 := by
  have hgoal : (evalRoutineStep clock tracker r).fired = true ↔
      clampEvery (.val em) * 60 * 1000 ≤ ((clock.nowMs - r.lastRunAt.getD 0 : Int) : ℚ) := by
    by_cases hc : clampEvery (.val em) * 60 * 1000
        ≤ (clock.nowMs : ℚ) - ((r.lastRunAt.getD 0 : Int) : ℚ) <;>
      simp [evalRoutineStep, htr, he, hc]
  have hle : clampEvery (.val em) ≤ 1440 :=
    max_le (by norm_num) (min_le_left _ _)
  refine ⟨hgoal, ?_, le_max_left _ _, hle⟩
  intro hnone hday
  rw [hgoal, hnone]
  have h2 : clampEvery (.val em) * 60 * 1000 ≤ 86400000 := by nlinarith [hle]
  have h3 : (86400000 : ℚ) ≤ ((clock.nowMs - (0 : Int) : Int) : ℚ) := by
    rw [sub_zero]
    exact_mod_cast hday
  exact le_trans h2 h3

/-- Witness for C6 at the spec's own example (N = 5 minutes,
`now = 1700000000000`): `lastRunAt = now − 300001` fires,
`lastRunAt = now − 300000 + 1000` does not, and an unset `lastRunAt`
fires. -/
theorem interval_trigger_due_iff_witness :
    (evalRoutineStep ⟨"12:00", "Mon Jan 01 2024", 1, 1700000000000⟩ []
      { id := "r1", enabled := true, trigger := some (.interval 5),
        lastRunAt := some 1699999699999 }).fired = true ∧
    (evalRoutineStep ⟨"12:00", "Mon Jan 01 2024", 1, 1700000000000⟩ []
      { id := "r1", enabled := true, trigger := some (.interval 5),
        lastRunAt := some 1699999701000 }).fired = false ∧
    (evalRoutineStep ⟨"12:00", "Mon Jan 01 2024", 1, 1700000000000⟩ []
      { id := "r1", enabled := true, trigger := some (.interval 5),
        lastRunAt := none }).fired = true := by
  have hcl : clampEvery (.val 5) = 5 := by
    rw [clampEvery]
    show max 1 (min 1440 5) = 5
    rw [min_eq_right (by norm_num), max_eq_right (by norm_num)]
  have h1 := interval_trigger_due_iff ⟨"12:00", "Mon Jan 01 2024", 1, 1700000000000⟩ []
    { id := "r1", enabled := true, trigger := some (.interval 5),
      lastRunAt := some 1699999699999 } 5 rfl rfl
  have h2 := interval_trigger_due_iff ⟨"12:00", "Mon Jan 01 2024", 1, 1700000000000⟩ []
    { id := "r1", enabled := true, trigger := some (.interval 5),
      lastRunAt := some 1699999701000 } 5 rfl rfl
  have h3 := interval_trigger_due_iff ⟨"12:00", "Mon Jan 01 2024", 1, 1700000000000⟩ []
    { id := "r1", enabled := true, trigger := some (.interval 5),
      lastRunAt := none } 5 rfl rfl
  refine ⟨?_, ?_, h3.2.1 rfl (by norm_num)⟩
  · rw [h1.1, hcl]
    norm_num
  · cases hb : (evalRoutineStep ⟨"12:00", "Mon Jan 01 2024", 1, 1700000000000⟩ []
      { id := "r1", enabled := true, trigger := some (.interval 5),
        lastRunAt := some 1699999701000 }).fired
    · rfl
    · exfalso
      have hc := h2.1.mp hb
      rw [hcl] at hc
      norm_num at hc

/-! ## Action runner (`runRoutineActions`, part_003 lines 630–670)

Each loop iteration is wrapped in a try/catch; `remote` abstracts the
whole remote dispatch of a single action (credential resolution, the
command HTTP call and the follow-up status fetch) — `.ok` is the device
state it returns, `.error` the message of whatever it throws.  The
activity-log append per successful action is an external sink and not
part of the result list. -/

/-- The device state returned alongside a successful command
(`{ on, online }` in the source; `on` is reserved in Lean). -/
structure DeviceState where
  isOn : Bool
  online : Bool
deriving DecidableEq

/-- One aggregated per-action result entry
`{ ok, actionId, state?, error? }`. -/
structure ActionResult where
  ok : Bool
  actionId : Option String
  state : Option DeviceState
  error : Option String
deriving DecidableEq

/-- One iteration of the `runRoutineActions` loop (the try/catch body). -/
def runOneAction (remote : NormAction → Except String DeviceState)
    (a : NormAction) : ActionResult :=
  match a.kind with
  | .toggle _ =>
    match remote a with
    | .ok st => ⟨true, a.base.id, some st, none⟩
    | .error e => ⟨false, a.base.id, none, some e⟩
  | .command _ _ _ =>
    match remote a with
    | .ok st => ⟨true, a.base.id, some st, none⟩
    | .error e => ⟨false, a.base.id, none, some e⟩
  | .other => ⟨false, a.base.id, none, some "Unsupported action type"⟩

/-- The sequential loop over the routine's actions. -/
def runActionsLoop (remote : NormAction → Except String DeviceState) :
    List NormAction → List ActionResult
  | [] => []
  | a :: rest => runOneAction remote a :: runActionsLoop remote rest

/-- Embedding of `runRoutineActions(routine)`. -/
def runRoutineActions (remote : NormAction → Except String DeviceState)
    (r : Routine) : List ActionResult :=
  runActionsLoop remote r.actions

/-- Helper: the loop is a map — each action contributes exactly its own
entry, independently of the others. -/
theorem runActionsLoop_eq_map (remote : NormAction → Except String DeviceState)
    (l : List NormAction) :
    runActionsLoop remote l = l.map (runOneAction remote) := by
  induction l with
  | nil => rfl
  | cons a rest ih => simp [runActionsLoop, ih]

/-- C4: executing a routine's action list yields exactly one result per
action, in list order, and the `i`-th result depends only on the `i`-th
action — so a failing action is folded into its own `ok:false` entry and
never prevents the subsequent actions from being attempted; a successful
dispatch yields `ok:true` with the device state, a thrown error is
caught into `ok:false` with the message, and an unsupported stored
action type yields its fixed `ok:false` entry. -/
theorem routine_actions_isolated_results
    (remote : NormAction → Except String DeviceState) (r : Routine) :
    (runRoutineActions remote r).length = r.actions.length ∧
    (∀ i, (runRoutineActions remote r).get? i
      = (r.actions.get? i).map (runOneAction remote)) ∧
    (∀ a st, remote a = .ok st → a.kind ≠ .other →
      runOneAction remote a = ⟨true, a.base.id, some st, none⟩) ∧
    (∀ a e, remote a = .error e → a.kind ≠ .other →
      runOneAction remote a = ⟨false, a.base.id, none, some e⟩) ∧
    (∀ a, a.kind = .other →
      runOneAction remote a
        = ⟨false, a.base.id, none, some "Unsupported action type"⟩) := by
  refine ⟨?_, ?_, ?_, ?_, ?_⟩
  · simp [runRoutineActions, runActionsLoop_eq_map]
  · intro i
    simp [runRoutineActions, runActionsLoop_eq_map, List.getElem?_map]
  · intro a st hst hk
    cases hkind : a.kind with
    | toggle b => simp [runOneAction, hkind, hst]
    | command c d e => simp [runOneAction, hkind, hst]
    | other => exact absurd hkind hk
  · intro a e hst hk
    cases hkind : a.kind with
    | toggle b => simp [runOneAction, hkind, hst]
    | command c d e2 => simp [runOneAction, hkind, hst]
    | other => exact absurd hkind hk
  · intro a hkind
    simp [runOneAction, hkind]

/-- A concrete remote dispatcher for the C4 witness: the device `"d2"`
always throws, every other device succeeds. -/
def demoRemote : NormAction → Except String DeviceState := fun a =>
  if a.base.deviceId = "d2" then .error "boom" else .ok ⟨true, true⟩

/-- A concrete three-action routine for the C4 witness (its second
action targets the failing device `"d2"`). -/
def demoRoutine : Routine :=
  { id := "r1", enabled := true,
    actions :=
      [⟨⟨some "a1", "d1", none, none⟩, .toggle true⟩,
       ⟨⟨some "a2", "d2", none, none⟩, .toggle true⟩,
       ⟨⟨some "a3", "d3", none, none⟩, .command "switch" "off" []⟩] }

/-- Witness for C4: with the middle action failing, the run still
produces three entries in order — `ok:true`, `ok:false` (with the caught
message), `ok:true`. -/
theorem routine_actions_isolated_results_witness :
    runRoutineActions demoRemote demoRoutine
      = [⟨true, some "a1", some ⟨true, true⟩, none⟩,
         ⟨false, some "a2", none, some "boom"⟩,
         ⟨true, some "a3", some ⟨true, true⟩, none⟩] ∧
    (runRoutineActions demoRemote demoRoutine).length = 3 ∧
    runOneAction demoRemote ⟨⟨some "a2", "d2", none, none⟩, .toggle true⟩
      = ⟨false, some "a2", none, some "boom"⟩ ∧
    runOneAction demoRemote ⟨⟨some "a3", "d3", none, none⟩, .command "switch" "off" []⟩
      = ⟨true, some "a3", some ⟨true, true⟩, none⟩ := by
  have h := routine_actions_isolated_results demoRemote demoRoutine
  refine ⟨by rfl, ?_, ?_, ?_⟩
  · rw [h.1]; rfl
  · exact h.2.2.2.1 ⟨⟨some "a2", "d2", none, none⟩, .toggle true⟩ "boom"
      (by rfl) (by decide)
  · exact h.2.2.1 ⟨⟨some "a3", "d3", none, none⟩, .command "switch" "off" []⟩
      ⟨true, true⟩ (by rfl) (by decide)

end WeepHub
